import Mathlib

/-
  Shallow embedding of the two SDR++ source modules
  (src/source_modules/kcsdr_source/src/main.cpp and
   src/source_modules/signalhound_bb_source/src/main.cpp).

  Each module's lifecycle controller is modelled as a pure function from an
  instance state (the relevant member variables) and a device-environment
  oracle (the results the vendor SDK would return) to a successor state plus
  the ordered list of externally visible actions (device calls, channel
  signals, thread spawn/join, error reports).  flog::info / flog::warn calls
  are not modelled; flog::error reports (and check_status error reports) are
  modelled as the `logError` event.
-/

namespace SDRPP

/-- Outcome of one iteration of an acquisition worker loop. -/
inductive StepResult
| idleRetry
| silentRetry
| exitOnHalt
| published (count : Nat)
| exitOnChannelStop
| exitOnError
| oversizeSkip
deriving DecidableEq

/-- Whether a loop-iteration outcome leaves the worker loop. -/
def isExit : StepResult → Bool
| StepResult.exitOnHalt => true
| StepResult.exitOnChannelStop => true
| StepResult.exitOnError => true
| _ => false

namespace KCSDR

/-- Externally visible actions of KCSDRSourceModule, in program order. -/
inductive Event
| rxPort (p : Nat)
| rxFreq (f : ℚ)
| rxAtt (a : Nat)
| rxAmp (g : Nat)
| rxExtAmp (g : Nat)
| rxBw (bw : ℚ)
| setInputSampleRate (r : ℚ)
| rxStart
| rxStop
| stopWriter
| joinWorker
| clearWriteStop
| spawnWorker
| logError
deriving DecidableEq

/-- The member variables of KCSDRSourceModule that the lifecycle logic
reads or writes (`api` and `currentDevice` abstracted to presence bits,
`workerThread` to a liveness bit). -/
structure State where
  running : Bool
  run : Bool
  hasApi : Bool
  hasDevice : Bool
  freq : ℚ
  selectedPort : Nat
  att : Nat
  gain : Nat
  extGain : Nat
  sampleRate : ℚ
  threadAlive : Bool
deriving DecidableEq

/-- KCSDRSourceModule::start.  `findOk` is whether api->find would succeed. -/
def start (s : State) (findOk : Bool) : State × List Event :=
  if s.running then (s, [])
  else if !s.hasApi then (s, [Event.logError])
  else if !s.hasDevice && !findOk then (s, [Event.logError])
  else
    let s1 : State := { s with hasDevice := true }
    (({ s1 with run := true, threadAlive := true, running := true } : State),
      [Event.rxPort s1.selectedPort, Event.rxFreq s1.freq, Event.rxAtt s1.att,
       Event.rxAmp s1.gain, Event.rxExtAmp s1.extGain, Event.rxBw s1.sampleRate,
       Event.setInputSampleRate s1.sampleRate, Event.rxStart, Event.spawnWorker])

/-- KCSDRSourceModule::stop. -/
def stop (s : State) : State × List Event :=
  if !s.running && !s.run then (s, [])
  else
    let haltEvs := if s.hasDevice && s.hasApi then [Event.rxStop] else []
    let joinEvs := if s.threadAlive then [Event.joinWorker] else []
    (({ s with run := false, running := false, threadAlive := false } : State),
      haltEvs ++ [Event.stopWriter] ++ joinEvs ++ [Event.clearWriteStop])

/-- KCSDRSourceModule::tune. -/
def tune (f : ℚ) (s : State) : State × List Event :=
  let s1 : State := { s with freq := f }
  if s1.running then (s1, [Event.rxFreq f]) else (s1, [])

/-- Fixed batch size of the worker's device read (samples per read). -/
def SAMPLES_PER_READ : Nat := 16384

/-- One iteration of KCSDRSourceModule::worker's loop body, as a function of
the values the iteration observes: device presence, the result of api->read,
the `run` flag re-read after a failed read, and the result of stream.swap. -/
def workerStep (hasDevice readOk runFlag swapOk : Bool) : StepResult :=
  if !hasDevice then StepResult.idleRetry
  else if !readOk then
    (if !runFlag then StepResult.exitOnHalt else StepResult.silentRetry)
  else if swapOk then StepResult.published SAMPLES_PER_READ
  else StepResult.exitOnChannelStop

/-- The values one worker-loop iteration observes: the `run` flag at the
loop guard, device presence, the read result, the `run` flag re-read after
a failed read, and the swap result. -/
structure IterIn where
  runAtGuard : Bool
  hasDevice : Bool
  readOk : Bool
  runAfterRead : Bool
  swapOk : Bool
deriving DecidableEq

/-- The counts passed to stream.swap by KCSDRSourceModule::worker over a
run of the loop driven by the given iteration observations. -/
def workerSwapCalls : List IterIn → List Nat
| [] => []
| it :: rest =>
  if !it.runAtGuard then []
  else if !it.hasDevice then workerSwapCalls rest
  else if !it.readOk then
    (if !it.runAfterRead then [] else workerSwapCalls rest)
  else
    SAMPLES_PER_READ :: (if it.swapOk then workerSwapCalls rest else [])

/-- The fixed normalization scale of the worker (1.0f / 32767.0f),
modelled in exact arithmetic. -/
def scale : ℚ := 1 / 32767

/-- Normalization of one raw 16-bit component (readBuffer[k] * scale). -/
def normalize (raw : ℤ) : ℚ := raw * scale

/-- Normalization of one raw I/Q pair into a normalized complex sample. -/
def normalizePair (rawI rawQ : ℤ) : ℚ × ℚ := (normalize rawI, normalize rawQ)

/-- Recognize the worker-spawn action. -/
def isSpawn : Event → Bool
| Event.spawnWorker => true
| _ => false

/-- Recognize the worker-join action. -/
def isJoin : Event → Bool
| Event.joinWorker => true
| _ => false

/-- Recognize a device configuration / stream-control call. -/
def isDeviceCall : Event → Bool
| Event.rxPort _ => true
| Event.rxFreq _ => true
| Event.rxAtt _ => true
| Event.rxAmp _ => true
| Event.rxExtAmp _ => true
| Event.rxBw _ => true
| Event.rxStart => true
| Event.rxStop => true
| _ => false

/-- Recognize an error report. -/
def isErr : Event → Bool
| Event.logError => true
| _ => false

/-- Number of worker threads spawned in an action trace. -/
def countSpawns : List Event → Nat
| [] => 0
| Event.spawnWorker :: r => countSpawns r + 1
| _ :: r => countSpawns r

/-- Number of worker threads joined in an action trace. -/
def countJoins : List Event → Nat
| [] => 0
| Event.joinWorker :: r => countJoins r + 1
| _ :: r => countJoins r

/-- A control command arriving at the lifecycle controller. -/
inductive Cmd
| start (findOk : Bool)
| stop
| tune (f : ℚ)
deriving DecidableEq

/-- Instance state paired with the spawn-minus-join counter of live
worker threads. -/
structure Traced where
  st : State
  alive : Nat
deriving DecidableEq

/-- Execute one control command, tracking the live-worker counter. -/
def execCmd (t : Traced) (c : Cmd) : Traced :=
  let r := match c with
    | Cmd.start findOk => start t.st findOk
    | Cmd.stop => stop t.st
    | Cmd.tune f => tune f t.st
  { st := r.1, alive := t.alive + countSpawns r.2 - countJoins r.2 }

/-- All states reached after each command of a command sequence. -/
def runCmds : Traced → List Cmd → List Traced
| _, [] => []
| t, c :: cs =>
  let t2 := execCmd t c
  t2 :: runCmds t2 cs

/-- The state of a freshly constructed KCSDRSourceModule (member
initializers of main.cpp; `apiOk` is whether kcsdr_init succeeded). -/
def initTraced (apiOk : Bool) : Traced :=
  { st := { running := false, run := false, hasApi := apiOk, hasDevice := false,
            freq := 100000000, selectedPort := 1, att := 0, gain := 15,
            extGain := 1, sampleRate := 10000000, threadAlive := false },
    alive := 0 }

/-- Lifecycle invariant tying the flags and the live-worker counter. -/
def Inv (t : Traced) : Prop :=
  t.st.run = t.st.running ∧ t.st.threadAlive = t.st.running ∧
  t.alive = (if t.st.running then 1 else 0)

end KCSDR

namespace SHBB

/-- Externally visible actions of SignalHoundBBModule, in program order. -/
inductive Event
| openDevice
| closeDevice
| bbAbortCall
| configureRefLevel (r : ℚ)
| configureGainAtten (g a : ℤ)
| configureIQCenter (f : ℚ)
| configureIQ (dec : Nat) (bw : ℚ)
| initiateStreaming
| queryIQParameters
| setInputSampleRate (r : ℚ)
| stopWriter
| joinWorker
| clearWriteStop
| spawnWorker
| logError
deriving DecidableEq

/-- The bbStatus values the RX thread distinguishes. -/
inductive BBStatus
| noError
| deviceNotStreamingErr
| otherErr
deriving DecidableEq

/-- The member variables of SignalHoundBBModule the lifecycle logic
reads or writes (`deviceHandle != -1` abstracted to `deviceOpen`,
`rxThread` to a liveness bit). -/
structure State where
  running : Bool
  threadAlive : Bool
  deviceOpen : Bool
  selectedSerial : Nat
  freq : ℚ
  decimationId : Nat
  bandwidthHz : ℚ
  refLevel : ℚ
  gain : ℤ
  attenuation : ℤ
  actualSampleRate : ℚ
deriving DecidableEq

/-- Oracle for the results the BB API calls would return.  Each `Ok` field
is the outcome of check_status on the corresponding call (false when the
status is a negative error code); `queriedRate` / `queriedBw` are what
bbQueryIQParameters would report. -/
structure DevEnv where
  openOk : Bool
  configRefOk : Bool
  configGainOk : Bool
  configCenterOk : Bool
  configIQOk : Bool
  initiateOk : Bool
  queryOk : Bool
  queriedRate : ℚ
  queriedBw : ℚ
deriving DecidableEq

/-- Maximum IF bandwidth per decimation tier (constructor of main.cpp). -/
def maxBandwidths : List ℚ :=
  [27000000, 17800000, 8000000, 3750000, 2000000, 1000000, 500000,
   250000, 140000, 65000, 30000, 15000, 8000, 4000]

/-- Bandwidth validation used by start() and by
restartStreamWithNewParams(): clamp to [200, maxBandwidths[decimationId]]. -/
def clampBandwidth (decimationId : Nat) (bw : ℚ) : ℚ :=
  let minB : ℚ := 200
  let maxB : ℚ := maxBandwidths.getD decimationId 0
  let bw1 := if bw < minB then minB else bw
  if bw1 > maxB then maxB else bw1

/-- The four bbConfigure* calls in program order (refLevel, gain/atten,
IQ center, IQ decimation+bandwidth). -/
def configEvents (s : State) : List Event :=
  [Event.configureRefLevel s.refLevel,
   Event.configureGainAtten s.gain s.attenuation,
   Event.configureIQCenter s.freq,
   Event.configureIQ (2 ^ s.decimationId) s.bandwidthHz]

/-- SignalHoundBBModule::start.  The short-circuit `||` chain over the
four bbConfigure* calls is modelled by nested branches, each emitting the
calls made up to and including the first failing one. -/
def start (s : State) (env : DevEnv) : State × List Event :=
  if s.running || s.selectedSerial == 0 then (s, [])
  else if !env.openOk then (s, [Event.openDevice, Event.logError])
  else
    let s1 : State := { s with
      deviceOpen := true,
      bandwidthHz := clampBandwidth s.decimationId s.bandwidthHz }
    if !env.configRefOk then
      (({ s1 with deviceOpen := false } : State),
       [Event.openDevice, Event.configureRefLevel s1.refLevel,
        Event.logError, Event.closeDevice])
    else if !env.configGainOk then
      (({ s1 with deviceOpen := false } : State),
       [Event.openDevice, Event.configureRefLevel s1.refLevel,
        Event.configureGainAtten s1.gain s1.attenuation,
        Event.logError, Event.closeDevice])
    else if !env.configCenterOk then
      (({ s1 with deviceOpen := false } : State),
       [Event.openDevice, Event.configureRefLevel s1.refLevel,
        Event.configureGainAtten s1.gain s1.attenuation,
        Event.configureIQCenter s1.freq, Event.logError, Event.closeDevice])
    else if !env.configIQOk then
      (({ s1 with deviceOpen := false } : State),
       [Event.openDevice] ++ configEvents s1 ++ [Event.logError, Event.closeDevice])
    else if !env.initiateOk then
      (({ s1 with deviceOpen := false } : State),
       [Event.openDevice] ++ configEvents s1 ++
       [Event.initiateStreaming, Event.logError, Event.closeDevice])
    else if !env.queryOk then
      (({ s1 with deviceOpen := false } : State),
       [Event.openDevice] ++ configEvents s1 ++
       [Event.initiateStreaming, Event.queryIQParameters, Event.logError,
        Event.bbAbortCall, Event.closeDevice])
    else
      (({ s1 with
          actualSampleRate := env.queriedRate,
          running := true,
          threadAlive := true } : State),
       [Event.openDevice] ++ configEvents s1 ++
       [Event.initiateStreaming, Event.queryIQParameters,
        Event.setInputSampleRate env.queriedRate, Event.spawnWorker])

/-- SignalHoundBBModule::stop. -/
def stop (s : State) : State × List Event :=
  if !s.running then (s, [])
  else
    let joinEvs := if s.threadAlive then [Event.joinWorker] else []
    let devEvs := if s.deviceOpen then [Event.bbAbortCall, Event.closeDevice] else []
    (({ s with running := false, threadAlive := false, deviceOpen := false } : State),
      [Event.stopWriter] ++ joinEvs ++ devEvs ++ [Event.clearWriteStop])

/-- The reconfigure / reinitiate / requery / respawn tail of
restartStreamWithNewParams, after the worker has been stopped and joined
and the stream aborted.  On a configure or initiate failure the function
returns with the instance left stopped (no clearWriteStop, no respawn). -/
def restartCore (s : State) (env : DevEnv) : State × List Event :=
  if !env.configRefOk then
    (s, [Event.configureRefLevel s.refLevel, Event.logError])
  else if !env.configGainOk then
    (s, [Event.configureRefLevel s.refLevel,
         Event.configureGainAtten s.gain s.attenuation, Event.logError])
  else if !env.configCenterOk then
    (s, [Event.configureRefLevel s.refLevel,
         Event.configureGainAtten s.gain s.attenuation,
         Event.configureIQCenter s.freq, Event.logError])
  else if !env.configIQOk then
    (s, configEvents s ++ [Event.logError])
  else if !env.initiateOk then
    (s, configEvents s ++ [Event.initiateStreaming, Event.logError])
  else
    let s2 : State := if env.queryOk then { s with actualSampleRate := env.queriedRate } else s
    let qEvs := if env.queryOk then
        [Event.queryIQParameters, Event.setInputSampleRate env.queriedRate]
      else [Event.queryIQParameters, Event.logError]
    (({ s2 with running := true, threadAlive := true } : State),
     configEvents s ++ [Event.initiateStreaming] ++ qEvs ++
     [Event.clearWriteStop, Event.spawnWorker])

/-- SignalHoundBBModule::restartStreamWithNewParams. -/
def restartStreamWithNewParams (s : State) (env : DevEnv) : State × List Event :=
  if !s.running || !s.deviceOpen then (s, [])
  else
    let pre := [Event.stopWriter] ++
      (if s.threadAlive then [Event.joinWorker] else []) ++ [Event.bbAbortCall]
    let s2 : State := { s with
      running := false,
      threadAlive := false,
      bandwidthHz := clampBandwidth s.decimationId s.bandwidthHz }
    let r := restartCore s2 env
    (r.1, pre ++ r.2)

/-- SignalHoundBBModule::tune. -/
def tune (f : ℚ) (s : State) (env : DevEnv) : State × List Event :=
  let s1 : State := { s with freq := f }
  if s1.running && s1.deviceOpen then restartStreamWithNewParams s1 env
  else (s1, [])

/-- Buffer size of the RX thread (16K complex samples). -/
def bufferSize : Nat := 16384

/-- One iteration of SignalHoundBBModule::rx_thread_func's loop body, as a
function of the bbGetIQ status, the returned iqCount and the swap result. -/
def rxStep (status : BBStatus) (iqCount : Nat) (swapOk : Bool) : StepResult :=
  if status ≠ BBStatus.noError then
    (if status = BBStatus.deviceNotStreamingErr then StepResult.silentRetry
     else StepResult.exitOnError)
  else if 0 < iqCount then
    (if iqCount ≤ bufferSize then
      (if swapOk then StepResult.published iqCount else StepResult.exitOnChannelStop)
     else StepResult.oversizeSkip)
  else StepResult.idleRetry

/-- Recognize the worker-join action. -/
def isJoinEv : Event → Bool
| Event.joinWorker => true
| _ => false

/-- Recognize the worker-spawn action. -/
def isSpawnEv : Event → Bool
| Event.spawnWorker => true
| _ => false

/-- Recognize an error report. -/
def isErrEv : Event → Bool
| Event.logError => true
| _ => false

end SHBB

/-- A KCSDR instance in the running state (after a successful start). -/
def kcRunning : KCSDR.State :=
  { running := true, run := true, hasApi := true, hasDevice := true,
    freq := 100000000, selectedPort := 1, att := 0, gain := 15,
    extGain := 1, sampleRate := 10000000, threadAlive := true }

/-- A KCSDR instance in the stopped state with the API available and no
device held yet. -/
def kcStopped : KCSDR.State :=
  { running := false, run := false, hasApi := true, hasDevice := false,
    freq := 100000000, selectedPort := 1, att := 0, gain := 15,
    extGain := 1, sampleRate := 10000000, threadAlive := false }

/-- A stopped KCSDR instance whose kcsdr_init failed (no API). -/
def kcNoApi : KCSDR.State :=
  { kcStopped with hasApi := false }

/-- A SignalHound instance in the running state. -/
def shRunning : SHBB.State :=
  { running := true, threadAlive := true, deviceOpen := true,
    selectedSerial := 12345, freq := 100000000, decimationId := 6,
    bandwidthHz := 500000, refLevel := -20, gain := -1, attenuation := -1,
    actualSampleRate := 625000 }

/-- A SignalHound instance in the stopped state, with a requested
bandwidth of 600 kHz, above the 500 kHz maximum of decimation tier 6. -/
def shStopped : SHBB.State :=
  { running := false, threadAlive := false, deviceOpen := false,
    selectedSerial := 12345, freq := 100000000, decimationId := 6,
    bandwidthHz := 600000, refLevel := -20, gain := -1, attenuation := -1,
    actualSampleRate := 625000 }

/-- A running SignalHound instance whose snapshot requests a 600 kHz
bandwidth, above the 500 kHz maximum of decimation tier 6. -/
def shRunningWideBw : SHBB.State :=
  { shRunning with bandwidthHz := 600000 }

/-- A device environment in which every BB API call succeeds and the
device reports back an actual rate of 625000 sps. -/
def envAllOk : SHBB.DevEnv :=
  { openOk := true, configRefOk := true, configGainOk := true,
    configCenterOk := true, configIQOk := true, initiateOk := true,
    queryOk := true, queriedRate := 625000, queriedBw := 500000 }

/-- A device environment in which bbConfigureRefLevel fails. -/
def envRefFail : SHBB.DevEnv :=
  { envAllOk with configRefOk := false }

/-- A device environment in which opening the device fails. -/
def envOpenFail : SHBB.DevEnv :=
  { envAllOk with openOk := false }

/-- Claim C1, counterexample: on the SignalHound stop path, the device
halt (bbAbort) does not precede the channel-stop signal (stopWriter) —
stop signals the channel first, joins, and only then halts the device. -/
theorem claim1_counterexample :
    (SHBB.stop shRunning).2 =
      [SHBB.Event.stopWriter, SHBB.Event.joinWorker, SHBB.Event.bbAbortCall,
       SHBB.Event.closeDevice, SHBB.Event.clearWriteStop] ∧
    ¬ ((SHBB.stop shRunning).2.findIdx (fun e => e == SHBB.Event.bbAbortCall) <
       (SHBB.stop shRunning).2.findIdx (fun e => e == SHBB.Event.stopWriter)) := by
  constructor
  · rfl
  · decide

/-- Claim C1, amended: on a running KC SDR instance stop() performs, in
order, the device halt, the channel stop, the join, and the channel reset;
on a running SignalHound instance stop() instead performs the channel
stop, then the join, then the device halt and close, then the channel
reset — the halt-before-channel-stop ordering holds only on the KC SDR
stop path. -/
theorem claim1_stop_order :
    (∀ s : KCSDR.State, s.running = true → s.hasDevice = true →
      s.hasApi = true → s.threadAlive = true →
      (KCSDR.stop s).2 =
        [KCSDR.Event.rxStop, KCSDR.Event.stopWriter,
         KCSDR.Event.joinWorker, KCSDR.Event.clearWriteStop]) ∧
    (∀ s : SHBB.State, s.running = true → s.threadAlive = true →
      s.deviceOpen = true →
      (SHBB.stop s).2 =
        [SHBB.Event.stopWriter, SHBB.Event.joinWorker, SHBB.Event.bbAbortCall,
         SHBB.Event.closeDevice, SHBB.Event.clearWriteStop]) := by
  constructor
  · intro s h1 h2 h3 h4
    simp [KCSDR.stop, h1, h2, h3, h4]
  · intro s h1 h2 h3
    simp [SHBB.stop, h1, h2, h3]

/-- Claim C1 witness: the amended order facts at concrete running states. -/
theorem claim1_stop_order_witness :
    (KCSDR.stop kcRunning).2 =
      [KCSDR.Event.rxStop, KCSDR.Event.stopWriter,
       KCSDR.Event.joinWorker, KCSDR.Event.clearWriteStop] ∧
    (SHBB.stop shRunning).2 =
      [SHBB.Event.stopWriter, SHBB.Event.joinWorker, SHBB.Event.bbAbortCall,
       SHBB.Event.closeDevice, SHBB.Event.clearWriteStop] :=
  ⟨claim1_stop_order.1 kcRunning rfl rfl rfl rfl,
   claim1_stop_order.2 shRunning rfl rfl rfl⟩

/-- Restarting the SignalHound stream never changes the stored frequency
snapshot. -/
theorem restart_preserves_freq (s : SHBB.State) (env : SHBB.DevEnv) :
    (SHBB.restartStreamWithNewParams s env).1.freq = s.freq := by
  unfold SHBB.restartStreamWithNewParams SHBB.restartCore
  split_ifs <;> rfl

/-- Claim C2, counterexample: on a running SignalHound instance, tune()
does not apply the frequency live — it performs a full stop/restart cycle,
joining and respawning the worker thread. -/
theorem claim2_counterexample :
    (SHBB.tune 101000000 shRunning envAllOk).2.any SHBB.isJoinEv = true ∧
    (SHBB.tune 101000000 shRunning envAllOk).2.any SHBB.isSpawnEv = true := by
  constructor <;> rfl

/-- Claim C2, amended: tune(f) always updates the stored frequency
snapshot to f; on the KC SDR module, while running the new frequency is
applied directly to the device with no other action, and while stopped
only the snapshot changes; on the SignalHound module, while stopped only
the snapshot changes, but while running (device open, worker alive) tune
performs a stop/reconfigure/restart cycle beginning with the channel
stop, the worker join and the device abort. -/
theorem claim2_tune :
    (∀ (s : KCSDR.State) (f : ℚ),
      (KCSDR.tune f s).1.freq = f ∧
      (s.running = true → (KCSDR.tune f s).2 = [KCSDR.Event.rxFreq f]) ∧
      (s.running = false → (KCSDR.tune f s).2 = [])) ∧
    (∀ (s : SHBB.State) (env : SHBB.DevEnv) (f : ℚ),
      (SHBB.tune f s env).1.freq = f ∧
      (s.running = false → (SHBB.tune f s env).2 = []) ∧
      (s.running = true → s.deviceOpen = true → s.threadAlive = true →
        (SHBB.tune f s env).2.take 3 =
          [SHBB.Event.stopWriter, SHBB.Event.joinWorker, SHBB.Event.bbAbortCall])) := by
  constructor
  · intro s f
    refine ⟨?_, ?_, ?_⟩
    · cases hr : s.running <;> simp [KCSDR.tune, hr]
    · intro h
      simp [KCSDR.tune, h]
    · intro h
      simp [KCSDR.tune, h]
  · intro s env f
    refine ⟨?_, ?_, ?_⟩
    · cases hr : s.running <;> cases hd : s.deviceOpen <;>
        simp [SHBB.tune, hr, hd, restart_preserves_freq]
    · intro h
      simp [SHBB.tune, h]
    · intro h1 h2 h3
      simp only [SHBB.tune, h1, h2, Bool.and_self, if_true]
      unfold SHBB.restartStreamWithNewParams SHBB.restartCore
      simp [h1, h2, h3]

/-- Claim C2 witness: the amended tune facts at concrete states. -/
theorem claim2_tune_witness :
    (KCSDR.tune 101000000 kcRunning).2 = [KCSDR.Event.rxFreq 101000000] ∧
    (SHBB.tune 101000000 shRunning envAllOk).2.take 3 =
      [SHBB.Event.stopWriter, SHBB.Event.joinWorker, SHBB.Event.bbAbortCall] :=
  ⟨(claim2_tune.1 kcRunning 101000000).2.1 rfl,
   (claim2_tune.2 shRunning envAllOk 101000000).2.2 rfl rfl rfl⟩

/-- Claim C3, counterexample: in the SignalHound RX loop an iteration that
observes a bbGetIQ error status other than bbDeviceNotStreamingErr exits
the loop, even though neither shutdown signal was raised (the swap would
still succeed). -/
theorem claim3_counterexample :
    SHBB.rxStep SHBB.BBStatus.otherErr 0 true = StepResult.exitOnError ∧
    isExit (SHBB.rxStep SHBB.BBStatus.otherErr 0 true) = true := by
  constructor <;> rfl

/-- Claim C3, amended: in the KC SDR worker a failed read while the run
flag is true is a silent retry and the loop exits only when the run flag
is cleared or the channel swap reports stop; in the SignalHound RX loop a
bbDeviceNotStreamingErr status is retried, but any other bbGetIQ error
status exits the loop. -/
theorem claim3_worker_retry :
    (∀ hasDevice readOk runFlag swapOk : Bool,
      (readOk = false → runFlag = true → hasDevice = true →
        KCSDR.workerStep hasDevice readOk runFlag swapOk = StepResult.silentRetry) ∧
      (isExit (KCSDR.workerStep hasDevice readOk runFlag swapOk) = true →
        runFlag = false ∨ swapOk = false)) ∧
    (∀ (iqCount : Nat) (swapOk : Bool),
      SHBB.rxStep SHBB.BBStatus.deviceNotStreamingErr iqCount swapOk =
        StepResult.silentRetry ∧
      SHBB.rxStep SHBB.BBStatus.otherErr iqCount swapOk =
        StepResult.exitOnError) := by
  constructor
  · decide
  · intro iqCount swapOk
    constructor <;> rfl

/-- Claim C3 witness: the amended retry/exit facts at concrete inputs. -/
theorem claim3_worker_retry_witness :
    KCSDR.workerStep true false true true = StepResult.silentRetry ∧
    (true = false ∨ false = false) ∧
    SHBB.rxStep SHBB.BBStatus.deviceNotStreamingErr 0 true = StepResult.silentRetry :=
  ⟨(claim3_worker_retry.1 true false true true).1 rfl rfl rfl,
   (claim3_worker_retry.1 true true true false).2 rfl,
   (claim3_worker_retry.2 0 true).1⟩

/-- Claim C4: start() on an already-running instance, or when the
capability layer is unavailable (KC SDR: kcsdr_init failed; SignalHound:
no device selected), leaves the entire instance state unchanged and
issues no device call and no worker spawn (at most an error report). -/
theorem claim4_start_noop :
    (∀ (s : KCSDR.State) (findOk : Bool),
      s.running = true ∨ s.hasApi = false →
      (KCSDR.start s findOk).1 = s ∧
      ((KCSDR.start s findOk).2.all
        (fun e => !(KCSDR.isDeviceCall e || KCSDR.isSpawn e))) = true) ∧
    (∀ (s : SHBB.State) (env : SHBB.DevEnv),
      s.running = true ∨ s.selectedSerial = 0 →
      (SHBB.start s env).1 = s ∧ (SHBB.start s env).2 = []) := by
  constructor
  · intro s findOk h
    cases hr : s.running with
    | true => simp [KCSDR.start, hr]
    | false =>
      have ha : s.hasApi = false := by
        rcases h with h | h
        · rw [hr] at h
          exact absurd h (by simp)
        · exact h
      simp [KCSDR.start, hr, ha, KCSDR.isDeviceCall, KCSDR.isSpawn]
  · intro s env h
    rcases h with h | h
    · simp [SHBB.start, h]
    · simp [SHBB.start, h]

/-- Claim C4 witness: the no-op facts at concrete states. -/
theorem claim4_start_noop_witness :
    ((KCSDR.start kcRunning true).1 = kcRunning ∧
      ((KCSDR.start kcRunning true).2.all
        (fun e => !(KCSDR.isDeviceCall e || KCSDR.isSpawn e))) = true) ∧
    ((SHBB.start shRunning envAllOk).1 = shRunning ∧
      (SHBB.start shRunning envAllOk).2 = []) :=
  ⟨claim4_start_noop.1 kcRunning true (Or.inl rfl),
   claim4_start_noop.2 shRunning envAllOk (Or.inl rfl)⟩

/-- Claim C6: the worker's normalization is a fixed linear scaling by
1/32767 that sends the maximum positive raw value 32767 exactly to +1,
sends the minimum raw value -32768 to within one quantization step of -1,
sends raw 0 exactly to 0, and is additive in the raw content (pure,
content-independent). -/
theorem claim6_normalization :
    KCSDR.normalize 32767 = 1 ∧
    KCSDR.normalize 0 = 0 ∧
    |KCSDR.normalize (-32768) - (-1)| ≤ KCSDR.scale ∧
    KCSDR.normalize (-32768) = -(32768 / 32767) ∧
    (∀ x y : ℤ, KCSDR.normalize (x + y) = KCSDR.normalize x + KCSDR.normalize y) ∧
    (∀ rawI rawQ : ℤ, KCSDR.normalizePair rawI rawQ =
      (KCSDR.normalize rawI, KCSDR.normalize rawQ)) := by
  refine ⟨?_, ?_, ?_, ?_, ?_, ?_⟩
  · norm_num [KCSDR.normalize, KCSDR.scale]
  · norm_num [KCSDR.normalize]
  · rw [abs_le]
    constructor <;> norm_num [KCSDR.normalize, KCSDR.scale]
  · norm_num [KCSDR.normalize, KCSDR.scale]
  · intro x y
    push_cast [KCSDR.normalize]
    ring
  · intro rawI rawQ
    rfl

/-- Claim C10: every count the KC SDR worker passes to stream.swap over
any run of its loop equals the fixed batch size SAMPLES_PER_READ = 16384;
no partial batch is ever committed. -/
theorem claim10_full_batches (ins : List KCSDR.IterIn) :
    KCSDR.SAMPLES_PER_READ = 16384 ∧
    ((KCSDR.workerSwapCalls ins).all
      (fun n => n == KCSDR.SAMPLES_PER_READ)) = true := by
  refine ⟨rfl, ?_⟩
  induction ins with
  | nil => rfl
  | cons it rest ih =>
    rcases it with ⟨rg, hd, ro, rar, sw⟩
    cases rg <;> cases hd <;> cases ro <;> cases rar <;> cases sw <;>
      simp [KCSDR.workerSwapCalls, ih]

/-- The lifecycle invariant is preserved by every control command. -/
theorem inv_execCmd (t : KCSDR.Traced) (c : KCSDR.Cmd) (h : KCSDR.Inv t) :
    KCSDR.Inv (KCSDR.execCmd t c) := by
  obtain ⟨h1, h2, h3⟩ := h
  cases c with
  | start findOk =>
    cases hr : t.st.running with
    | true =>
      simp [KCSDR.execCmd, KCSDR.start, hr, KCSDR.Inv,
        KCSDR.countSpawns, KCSDR.countJoins, h1, h2, h3]
    | false =>
      rw [hr] at h3
      cases ha : t.st.hasApi with
      | false =>
        simp [KCSDR.execCmd, KCSDR.start, hr, ha, KCSDR.Inv,
          KCSDR.countSpawns, KCSDR.countJoins, h1, h2, h3]
      | true =>
        cases hf : (!t.st.hasDevice && !findOk) with
        | true =>
          simp [KCSDR.execCmd, KCSDR.start, hr, ha, hf, KCSDR.Inv,
            KCSDR.countSpawns, KCSDR.countJoins, h1, h2, h3]
        | false =>
          simp [KCSDR.execCmd, KCSDR.start, hr, ha, hf, KCSDR.Inv,
            KCSDR.countSpawns, KCSDR.countJoins, h3]
  | stop =>
    cases hr : t.st.running with
    | false =>
      have hrun : t.st.run = false := by rw [h1, hr]
      simp [KCSDR.execCmd, KCSDR.stop, hr, hrun, KCSDR.Inv,
        KCSDR.countSpawns, KCSDR.countJoins, h1, h2, h3]
    | true =>
      have ht : t.st.threadAlive = true := by rw [h2, hr]
      rw [hr] at h3
      cases hd : (t.st.hasDevice && t.st.hasApi) <;>
        simp [KCSDR.execCmd, KCSDR.stop, hr, ht, hd, KCSDR.Inv,
          KCSDR.countSpawns, KCSDR.countJoins, h3]
  | tune f =>
    cases hr : t.st.running with
    | true =>
      simp [KCSDR.execCmd, KCSDR.tune, hr, KCSDR.Inv,
        KCSDR.countSpawns, KCSDR.countJoins, h1, h2, h3]
    | false =>
      simp [KCSDR.execCmd, KCSDR.tune, hr, KCSDR.Inv,
        KCSDR.countSpawns, KCSDR.countJoins, h1, h2, h3]

/-- Under the lifecycle invariant, the live-worker counter never exceeds
one along any command sequence. -/
theorem runCmds_alive_le (t : KCSDR.Traced) (cmds : List KCSDR.Cmd)
    (h : KCSDR.Inv t) :
    ((KCSDR.runCmds t cmds).all (fun u => decide (u.alive ≤ 1))) = true := by
  induction cmds generalizing t with
  | nil => rfl
  | cons c cs ih =>
    have h2 := inv_execCmd t c h
    have hle : (KCSDR.execCmd t c).alive ≤ 1 := by
      rcases h2 with ⟨-, -, h3⟩
      rw [h3]
      cases (KCSDR.execCmd t c).st.running <;> simp
    simp [KCSDR.runCmds, List.all_cons, ih _ h2, hle]

/-- Claim C5: for every finite sequence of start/stop/tune commands on a
freshly constructed KC SDR instance, the spawn-minus-join counter of live
worker threads never exceeds one at any point along the run. -/
theorem claim5_at_most_one_worker (apiOk : Bool) (cmds : List KCSDR.Cmd) :
    ((KCSDR.runCmds (KCSDR.initTraced apiOk) cmds).all
      (fun u => decide (u.alive ≤ 1))) = true :=
  runCmds_alive_le _ cmds ⟨rfl, rfl, rfl⟩

/-- Every decimation tier's maximum bandwidth is at least the absolute
minimum bandwidth of 200 Hz. -/
theorem maxBandwidths_ge_200 :
    ∀ i : Nat, i < 14 → (200 : ℚ) ≤ SHBB.maxBandwidths.getD i 0 := by
  decide

/-- Requesting a bandwidth above the selected tier's maximum clamps it to
exactly that maximum. -/
theorem clamp_of_gt (i : Nat) (bw : ℚ) (hi : i < 14)
    (h : SHBB.maxBandwidths.getD i 0 < bw) :
    SHBB.clampBandwidth i bw = SHBB.maxBandwidths.getD i 0 := by
  have h200 := maxBandwidths_ge_200 i hi
  have hnl : ¬ bw < 200 := by linarith
  simp only [List.getD, List.get?_eq_getElem?] at h h200 ⊢
  simp [SHBB.clampBandwidth, hnl, h, List.getD, List.get?_eq_getElem?]

/-- Claim C7: on both the start and the reconfigure path, a requested
bandwidth strictly above the selected decimation tier's maximum is
adopted as exactly that maximum, and the sample-rate notification sent to
the consumer carries the rate queried back from the device (which is also
stored as actualSampleRate), not the requested value. -/
theorem claim7_bandwidth_clamp :
    (∀ (s : SHBB.State) (env : SHBB.DevEnv),
      s.running = false → s.selectedSerial ≠ 0 → s.decimationId < 14 →
      SHBB.maxBandwidths.getD s.decimationId 0 < s.bandwidthHz →
      env.openOk = true → env.configRefOk = true → env.configGainOk = true →
      env.configCenterOk = true → env.configIQOk = true →
      env.initiateOk = true → env.queryOk = true →
      (SHBB.start s env).1.bandwidthHz = SHBB.maxBandwidths.getD s.decimationId 0 ∧
      (SHBB.start s env).1.actualSampleRate = env.queriedRate ∧
      ((SHBB.start s env).2.contains
        (SHBB.Event.setInputSampleRate env.queriedRate)) = true) ∧
    (∀ (s : SHBB.State) (env : SHBB.DevEnv),
      s.running = true → s.deviceOpen = true → s.decimationId < 14 →
      SHBB.maxBandwidths.getD s.decimationId 0 < s.bandwidthHz →
      env.configRefOk = true → env.configGainOk = true →
      env.configCenterOk = true → env.configIQOk = true →
      env.initiateOk = true → env.queryOk = true →
      (SHBB.restartStreamWithNewParams s env).1.bandwidthHz =
        SHBB.maxBandwidths.getD s.decimationId 0 ∧
      (SHBB.restartStreamWithNewParams s env).1.actualSampleRate = env.queriedRate ∧
      ((SHBB.restartStreamWithNewParams s env).2.contains
        (SHBB.Event.setInputSampleRate env.queriedRate)) = true) := by
  constructor
  · intro s env hrun hser hi hbw e1 e2 e3 e4 e5 e6 e7
    simp [SHBB.start, hrun, hser, e1, e2, e3, e4, e5, e6, e7,
      clamp_of_gt s.decimationId s.bandwidthHz hi hbw, SHBB.configEvents,
      List.contains]
  · intro s env hrun hdev hi hbw e2 e3 e4 e5 e6 e7
    simp [SHBB.restartStreamWithNewParams, SHBB.restartCore, hrun, hdev,
      e2, e3, e4, e5, e6, e7,
      clamp_of_gt s.decimationId s.bandwidthHz hi hbw, SHBB.configEvents,
      List.contains]

/-- Claim C7 witness: at decimation tier 6 (maximum 500 kHz), a requested
bandwidth of 600 kHz is adopted as 500 kHz and the notified rate is the
device-reported 625000 sps, on both the start and the reconfigure path. -/
theorem claim7_bandwidth_clamp_witness :
    ((SHBB.start shStopped envAllOk).1.bandwidthHz = 500000 ∧
      (SHBB.start shStopped envAllOk).1.actualSampleRate = 625000 ∧
      ((SHBB.start shStopped envAllOk).2.contains
        (SHBB.Event.setInputSampleRate 625000)) = true) ∧
    ((SHBB.restartStreamWithNewParams shRunningWideBw envAllOk).1.bandwidthHz = 500000 ∧
      (SHBB.restartStreamWithNewParams shRunningWideBw envAllOk).1.actualSampleRate = 625000 ∧
      ((SHBB.restartStreamWithNewParams shRunningWideBw envAllOk).2.contains
        (SHBB.Event.setInputSampleRate 625000)) = true) :=
  ⟨claim7_bandwidth_clamp.1 shStopped envAllOk rfl (by decide) (by decide)
      (by decide) rfl rfl rfl rfl rfl rfl rfl,
   claim7_bandwidth_clamp.2 shRunningWideBw envAllOk rfl rfl (by decide)
      (by decide) rfl rfl rfl rfl rfl rfl⟩

/-- Claim C8, counterexample: a reconfigure on a running instance whose
bbConfigureRefLevel call fails leaves the instance stopped with no worker
thread — reconfigure can leave a running instance stopped. -/
theorem claim8_counterexample :
    (SHBB.restartStreamWithNewParams shRunning envRefFail).1.running = false ∧
    (SHBB.restartStreamWithNewParams shRunning envRefFail).1.threadAlive = false := by
  constructor <;> rfl

/-- Claim C8, amended: a reconfigure on a running instance whose device
reconfiguration and stream-initiation calls all succeed ends with the
instance again Running and a live worker thread; if a configure or
initiate call fails, the instance is left stopped with no worker. -/
theorem claim8_restart_running (s : SHBB.State) (env : SHBB.DevEnv)
    (hrun : s.running = true) (hdev : s.deviceOpen = true)
    (e2 : env.configRefOk = true) (e3 : env.configGainOk = true)
    (e4 : env.configCenterOk = true) (e5 : env.configIQOk = true)
    (e6 : env.initiateOk = true) :
    (SHBB.restartStreamWithNewParams s env).1.running = true ∧
    (SHBB.restartStreamWithNewParams s env).1.threadAlive = true ∧
    ((SHBB.restartStreamWithNewParams s env).2.contains SHBB.Event.spawnWorker) = true := by
  cases hq : env.queryOk <;>
    simp [SHBB.restartStreamWithNewParams, SHBB.restartCore, hrun, hdev,
      e2, e3, e4, e5, e6, hq, SHBB.configEvents, List.contains]

/-- Claim C8 witness: a successful reconfigure on a concrete running
instance ends Running with a live, respawned worker. -/
theorem claim8_restart_running_witness :
    (SHBB.restartStreamWithNewParams shRunning envAllOk).1.running = true ∧
    (SHBB.restartStreamWithNewParams shRunning envAllOk).1.threadAlive = true ∧
    ((SHBB.restartStreamWithNewParams shRunning envAllOk).2.contains
      SHBB.Event.spawnWorker) = true :=
  claim8_restart_running shRunning envAllOk rfl rfl rfl rfl rfl rfl rfl

/-- Claim C9: a start() that hits an initialization error (KC SDR: the
capability API unavailable, or the device not found; SignalHound: the
device open fails) aborts with the run state still Stopped, spawns no
worker, reports the error, and leaves the instance able to start
successfully on a later retry. -/
theorem claim9_init_error :
    (∀ s : KCSDR.State,
      s.running = false → s.hasApi = false →
      (KCSDR.start s true).1 = s ∧
      ((KCSDR.start s true).2.all (fun e => !KCSDR.isSpawn e)) = true ∧
      ((KCSDR.start s true).2.any KCSDR.isErr) = true) ∧
    (∀ s : KCSDR.State,
      s.running = false → s.threadAlive = false → s.hasApi = true →
      s.hasDevice = false →
      (KCSDR.start s false).1.running = false ∧
      (KCSDR.start s false).1.threadAlive = false ∧
      ((KCSDR.start s false).2.all (fun e => !KCSDR.isSpawn e)) = true ∧
      ((KCSDR.start s false).2.any KCSDR.isErr) = true ∧
      (KCSDR.start (KCSDR.start s false).1 true).1.running = true) ∧
    (∀ (s : SHBB.State) (env envRetry : SHBB.DevEnv),
      s.running = false → s.threadAlive = false → s.selectedSerial ≠ 0 →
      env.openOk = false →
      envRetry.openOk = true → envRetry.configRefOk = true →
      envRetry.configGainOk = true → envRetry.configCenterOk = true →
      envRetry.configIQOk = true → envRetry.initiateOk = true →
      envRetry.queryOk = true →
      (SHBB.start s env).1.running = false ∧
      (SHBB.start s env).1.threadAlive = false ∧
      ((SHBB.start s env).2.all (fun e => !SHBB.isSpawnEv e)) = true ∧
      ((SHBB.start s env).2.any SHBB.isErrEv) = true ∧
      (SHBB.start (SHBB.start s env).1 envRetry).1.running = true) := by
  refine ⟨?_, ?_, ?_⟩
  · intro s hrun hapi
    simp [KCSDR.start, hrun, hapi, KCSDR.isSpawn, KCSDR.isErr]
  · intro s hrun hth hapi hdev
    simp [KCSDR.start, hrun, hth, hapi, hdev, KCSDR.isSpawn, KCSDR.isErr]
  · intro s env envRetry hrun hth hser hopen r1 r2 r3 r4 r5 r6 r7
    have hfail : (SHBB.start s env).1 = s ∧
        (SHBB.start s env).2 = [SHBB.Event.openDevice, SHBB.Event.logError] := by
      simp [SHBB.start, hrun, hser, hopen]
    refine ⟨?_, ?_, ?_, ?_, ?_⟩
    · rw [hfail.1, hrun]
    · rw [hfail.1, hth]
    · rw [hfail.2]
      rfl
    · rw [hfail.2]
      rfl
    · rw [hfail.1]
      simp [SHBB.start, hrun, hser, r1, r2, r3, r4, r5, r6, r7]

/-- Claim C9 witness: concrete failed starts leave the instance stopped
with an error report and no worker, and a later retry succeeds. -/
theorem claim9_init_error_witness :
    ((KCSDR.start kcNoApi true).1 = kcNoApi ∧
      ((KCSDR.start kcNoApi true).2.all (fun e => !KCSDR.isSpawn e)) = true ∧
      ((KCSDR.start kcNoApi true).2.any KCSDR.isErr) = true) ∧
    ((KCSDR.start kcStopped false).1.running = false ∧
      (KCSDR.start (KCSDR.start kcStopped false).1 true).1.running = true) ∧
    ((SHBB.start shStopped envOpenFail).1.running = false ∧
      ((SHBB.start shStopped envOpenFail).2.any SHBB.isErrEv) = true ∧
      (SHBB.start (SHBB.start shStopped envOpenFail).1 envAllOk).1.running = true) := by
  have h1 := claim9_init_error.1 kcNoApi rfl rfl
  have h2 := claim9_init_error.2.1 kcStopped rfl rfl rfl rfl
  have h3 := claim9_init_error.2.2 shStopped envOpenFail envAllOk rfl rfl
    (by decide) rfl rfl rfl rfl rfl rfl rfl rfl
  exact ⟨⟨h1.1, h1.2.1, h1.2.2⟩, ⟨h2.1, h2.2.2.2.2⟩, ⟨h3.1, h3.2.2.2.1, h3.2.2.2.2⟩⟩

end SDRPP
